import Mathlib

/-!
Shallow embedding of the batch-conversion pipeline of
`dax_uc_metric_view_converter.py` and of the metrics reader
`aas_metrics/read_aas_metrics.py`, together with theorems settling the
frozen claims about the program.

Modelling conventions:
* Python exceptions are modelled with `Except String`: a function that can
  raise returns `Except.error msg` where the Python code would raise an
  exception with description `msg`.
* Wall-clock readings (`datetime.now()`) are passed in explicitly as string
  parameters (`timestamp` for `strftime("%Y%m%d_%H%M%S")`, `now_str` for
  `strftime("%Y-%m-%d %H:%M:%S")`).
* The external LLM translator and the file system are inputs: the translator
  is a function parameter, a directory is a list of
  `(filename, file lines)` pairs, and a written file is returned as data.
* File contents are modelled as the list of their lines (without trailing
  newline characters), matching how the Python code consumes them
  (`splitlines()` / `readlines()` followed by per-line tests).
-/

namespace AASConverter

/-! ### Python string primitives (structural, kernel-evaluable) -/

/-- The whitespace characters recognised by Python's `str.strip()` for the
ASCII range (space, tab, newline, carriage return, vertical tab, form feed). -/
def isPySpace (c : Char) : Bool :=
  c = ' ' || c = '\t' || c = '\n' || c = '\x0d' || c = '\x0b' || c = '\x0c'

/-- Python `str.strip()`: remove leading and trailing whitespace. -/
def pyStrip (s : String) : String :=
  String.mk (((s.toList.dropWhile isPySpace).reverse.dropWhile isPySpace).reverse)

/-- Does the character list `s` start with the character list `pre`? -/
def listStartsWith : List Char → List Char → Bool
  | [], _ => true
  | _ :: _, [] => false
  | p :: ps, c :: cs => (p = c) && listStartsWith ps cs

/-- Python's substring test `pat in s`, on character lists. -/
def listContains (pat : List Char) : List Char → Bool
  | [] => listStartsWith pat []
  | s@(_ :: t) => listStartsWith pat s || listContains pat t

/-- Python `s.startswith(pre)`. -/
def pyStartsWith (s pre : String) : Bool :=
  listStartsWith pre.toList s.toList

/-- Python `s.endswith(suf)`. -/
def pyEndsWith (s suf : String) : Bool :=
  listStartsWith suf.toList.reverse s.toList.reverse

/-- Python `pat in s` on strings. -/
def pyContains (s pat : String) : Bool :=
  listContains pat.toList s.toList

/-- Split a character list at every `'\n'`, with Python `splitlines()`
semantics: no trailing empty line for a trailing newline, `[]` for the
empty text.  (The inputs of this program contain no `'\r'`.) -/
def splitLinesChars : List Char → List (List Char)
  | [] => []
  | c :: t =>
    if c = '\n' then [] :: splitLinesChars t
    else
      match splitLinesChars t with
      | [] => [[c]]
      | l :: ls => (c :: l) :: ls

/-- Python `s.splitlines()`. -/
def pySplitlines (s : String) : List String :=
  (splitLinesChars s.toList).map String.mk

/-- Python `sep.join(parts)`. -/
def pyJoin (sep : String) : List String → String
  | [] => ""
  | [x] => x
  | x :: xs => x ++ sep ++ pyJoin sep xs

/-! ### Batch Splitter: `create_batches`

Source (`dax_uc_metric_view_converter.py`):
```
batches = []
for i in range(0, len(metrics_list), batch_size):
    batch = metrics_list[i:i + batch_size]
    batches.append(batch)
return batches
```
`range(0, n, step)` with `step = 0` raises `ValueError`; with `step < 0`
and `n >= 0` it is empty (so the loop body never runs and `[]` is
returned); with `step > 0` it enumerates `k * step` for
`k < ceil(n / step)`.  The slice `l[i:i+b]` is `(l.drop i).take b`. -/

def create_batches {α : Type} (metrics_list : List α) (batch_size : Int) :
    Except String (List (List α)) :=
  if batch_size = 0 then
    Except.error "ValueError: range() arg 3 must not be zero"
  else if batch_size < 0 then
    Except.ok []
  else
    let b := batch_size.toNat
    Except.ok <|
      (List.range ((metrics_list.length + b - 1) / b)).map
        (fun k => (metrics_list.drop (k * b)).take b)

/-- Recursive chunking, used as a stepping stone for the proofs about
`create_batches` (`k + 1` is the positive batch size). -/
def chunkRec {α : Type} (k : Nat) : List α → List (List α)
  | [] => []
  | a :: t => ((a :: t).take (k + 1)) :: chunkRec k ((a :: t).drop (k + 1))
  termination_by l => l.length
  decreasing_by simp [List.drop_drop]; omega

theorem chunkRec_nil {α : Type} (k : Nat) : chunkRec (α := α) k [] = [] := by
  simp [chunkRec]

theorem chunkRec_cons {α : Type} (k : Nat) (a : α) (t : List α) :
    chunkRec k (a :: t) =
      ((a :: t).take (k + 1)) :: chunkRec k ((a :: t).drop (k + 1)) := by
  simp [chunkRec]

/-- The count of chunks is the ceiling `(n + k) / (k + 1)` of `n / (k+1)`. -/
theorem chunkRec_length {α : Type} (k : Nat) :
    ∀ (n : Nat) (l : List α), l.length ≤ n →
      (chunkRec k l).length = (l.length + k) / (k + 1)
  | _, [] , _ => by
      simp [chunkRec_nil, Nat.div_eq_of_lt (Nat.lt_succ_self k)]
  | 0, a :: t, h => by simp at h
  | n + 1, a :: t, h => by
      have hlen : ((a :: t).drop (k + 1)).length ≤ n := by
        simp at h ⊢; omega
      rw [chunkRec_cons, List.length_cons,
        chunkRec_length k n ((a :: t).drop (k + 1)) hlen]
      simp only [List.length_drop, List.length_cons]
      rcases le_or_lt (t.length + 1) (k + 1) with hle | hlt
      · have h1 : t.length + 1 - (k + 1) = 0 := by omega
        rw [h1]
        have h2 : (0 + k) / (k + 1) = 0 := by
          apply Nat.div_eq_of_lt; omega
        have h3 : (t.length + 1 + k) / (k + 1) = 1 := by
          rw [Nat.div_eq_sub_div (by omega) (by omega)]
          have : t.length + 1 + k - (k + 1) = t.length := by omega
          rw [this, Nat.div_eq_of_lt (by omega)]
        omega
      · have h1 : t.length + 1 - (k + 1) + k = t.length + 1 + k - (k + 1) := by
          omega
        rw [h1, ← Nat.div_eq_sub_div (by omega) (by omega)]

/-- Concatenating the chunks gives back the original list. -/
theorem chunkRec_flatten {α : Type} (k : Nat) :
    ∀ (n : Nat) (l : List α), l.length ≤ n → (chunkRec k l).flatten = l
  | _, [], _ => by simp [chunkRec_nil]
  | 0, a :: t, h => by simp at h
  | n + 1, a :: t, h => by
      have hlen : ((a :: t).drop (k + 1)).length ≤ n := by
        simp at h ⊢; omega
      rw [chunkRec_cons, List.flatten_cons,
        chunkRec_flatten k n ((a :: t).drop (k + 1)) hlen,
        List.take_append_drop]

/-- Every chunk is non-empty and no longer than the batch size. -/
theorem chunkRec_sizes {α : Type} (k : Nat) :
    ∀ (n : Nat) (l : List α), l.length ≤ n →
      ∀ batch ∈ chunkRec k l, 0 < batch.length ∧ batch.length ≤ k + 1
  | _, [], _ => by simp [chunkRec_nil]
  | 0, a :: t, h => by simp at h
  | n + 1, a :: t, h => by
      have hlen : ((a :: t).drop (k + 1)).length ≤ n := by
        simp at h ⊢; omega
      rw [chunkRec_cons]
      intro batch hmem
      rcases List.mem_cons.mp hmem with heq | htail
      · subst heq
        constructor
        · simp
        · simp
      · exact chunkRec_sizes k n ((a :: t).drop (k + 1)) hlen batch htail

/-- Every chunk except possibly the last has length exactly the batch size. -/
theorem chunkRec_full {α : Type} (k : Nat) :
    ∀ (n : Nat) (l : List α), l.length ≤ n →
      ∀ batch ∈ (chunkRec k l).dropLast, batch.length = k + 1
  | _, [], _ => by simp [chunkRec_nil]
  | 0, a :: t, h => by simp at h
  | n + 1, a :: t, h => by
      have hlen : ((a :: t).drop (k + 1)).length ≤ n := by
        simp at h ⊢; omega
      rw [chunkRec_cons]
      intro batch hmem
      rcases hrest : chunkRec k ((a :: t).drop (k + 1)) with _ | ⟨r, rs⟩
      · rw [hrest] at hmem
        simp at hmem
      · rw [hrest, List.dropLast_cons_of_ne_nil (by simp)] at hmem
        rcases List.mem_cons.mp hmem with heq | htail
        · subst heq
          have hne : (a :: t).drop (k + 1) ≠ [] := by
            intro hnil
            rw [hnil, chunkRec_nil] at hrest
            exact List.noConfusion hrest
          have hlong : k + 1 ≤ (a :: t).length := by
            by_contra hshort
            exact hne (List.drop_eq_nil_of_le (by omega))
          simpa using List.length_take_of_le hlong
        · have := chunkRec_full k n ((a :: t).drop (k + 1)) hlen batch
          rw [hrest] at this
          exact this htail

/-- The closed `range`/`map` form used in `create_batches` agrees with the
recursive chunking. -/
theorem create_batches_core_eq {α : Type} (k : Nat) :
    ∀ (n : Nat) (l : List α), l.length ≤ n →
      (List.range ((l.length + (k + 1) - 1) / (k + 1))).map
          (fun j => (l.drop (j * (k + 1))).take (k + 1)) =
        chunkRec k l
  | _, [], _ => by
      simp [chunkRec_nil, Nat.div_eq_of_lt (Nat.lt_succ_self k)]
  | 0, a :: t, h => by simp at h
  | n + 1, a :: t, h => by
      have hlen : ((a :: t).drop (k + 1)).length ≤ n := by
        simp at h ⊢; omega
      have hcount : ((a :: t).length + (k + 1) - 1) / (k + 1) =
          (((a :: t).drop (k + 1)).length + (k + 1) - 1) / (k + 1) + 1 := by
        simp only [List.length_drop, List.length_cons]
        rcases le_or_lt (t.length + 1) (k + 1) with hle | hlt
        · have h1 : t.length + 1 - (k + 1) = 0 := by omega
          rw [h1]
          have h2 : (0 + (k + 1) - 1) / (k + 1) = 0 :=
            Nat.div_eq_of_lt (by omega)
          have h3 : (t.length + 1 + (k + 1) - 1) / (k + 1) = 1 := by
            rw [Nat.div_eq_sub_div (by omega) (by omega)]
            have heq : t.length + 1 + (k + 1) - 1 - (k + 1) = t.length := by
              omega
            rw [heq, Nat.div_eq_of_lt (by omega)]
          omega
        · have h1 : t.length + 1 - (k + 1) + (k + 1) - 1 =
              t.length + 1 + (k + 1) - 1 - (k + 1) := by omega
          rw [h1, ← Nat.div_eq_sub_div (by omega) (by omega)]
      rw [hcount, List.range_succ_eq_map, List.map_cons, List.map_map]
      rw [chunkRec_cons]
      congr 1
      · simp
      · rw [← create_batches_core_eq k n ((a :: t).drop (k + 1)) hlen]
        apply List.map_congr_left
        intro j _
        simp only [Function.comp_apply, Nat.succ_eq_add_one]
        rw [List.drop_drop]
        have harith : (j + 1) * (k + 1) = k + 1 + j * (k + 1) := by ring
        rw [harith]

/-- For a positive batch size, `create_batches` succeeds and returns the
chunking of its input. -/
theorem create_batches_pos_eq {α : Type} (l : List α) (b : Int) (hb : 0 < b) :
    create_batches l b = Except.ok (chunkRec (b.toNat - 1) l) := by
  have hb0 : b ≠ 0 := by omega
  have hbneg : ¬ b < 0 := by omega
  have hbn : b.toNat = (b.toNat - 1) + 1 := by omega
  simp only [create_batches, if_neg hb0, if_neg hbneg]
  rw [hbn, create_batches_core_eq (b.toNat - 1) l.length l (Nat.le_refl _)]
  norm_num

/-- Claim C1: For every input list and positive batch size `b`,
`create_batches` returns exactly `ceil(n / b)` batches; every batch except
possibly the last has length exactly `b`, every batch is non-empty and no
longer than `b`, and concatenating the batches in order reproduces the
input exactly (so each batch is the corresponding contiguous sub-list). -/
theorem create_batches_correct {α : Type} (l : List α) (b : Int) (hb : 0 < b) :
    ∃ bs : List (List α),
      create_batches l b = Except.ok bs ∧
      bs.length = (l.length + b.toNat - 1) / b.toNat ∧
      bs.flatten = l ∧
      (∀ batch ∈ bs.dropLast, batch.length = b.toNat) ∧
      (∀ batch ∈ bs, 0 < batch.length ∧ batch.length ≤ b.toNat) := by
  refine ⟨chunkRec (b.toNat - 1) l, create_batches_pos_eq l b hb, ?_, ?_, ?_, ?_⟩
  · have hbn : b.toNat = (b.toNat - 1) + 1 := by omega
    rw [chunkRec_length (b.toNat - 1) l.length l (Nat.le_refl _)]
    congr 1 <;> omega
  · exact chunkRec_flatten (b.toNat - 1) l.length l (Nat.le_refl _)
  · intro batch hmem
    have := chunkRec_full (b.toNat - 1) l.length l (Nat.le_refl _) batch hmem
    omega
  · intro batch hmem
    have := chunkRec_sizes (b.toNat - 1) l.length l (Nat.le_refl _) batch hmem
    omega

/-- Witness for C1: 12 units with batch size 5 give 3 batches of sizes
5, 5, 2 that concatenate back to the input. -/
theorem create_batches_correct_witness :
    ∃ bs : List (List Nat),
      create_batches [0, 1, 2, 3, 4, 5, 6, 7, 8, 9, 10, 11] (5 : Int) =
        Except.ok bs ∧
      bs.length = ((12 : Nat) + (5 : Int).toNat - 1) / (5 : Int).toNat ∧
      bs.flatten = [0, 1, 2, 3, 4, 5, 6, 7, 8, 9, 10, 11] ∧
      (∀ batch ∈ bs.dropLast, batch.length = (5 : Int).toNat) ∧
      (∀ batch ∈ bs, 0 < batch.length ∧ batch.length ≤ (5 : Int).toNat) :=
  create_batches_correct [0, 1, 2, 3, 4, 5, 6, 7, 8, 9, 10, 11] 5 (by decide)

/-- Claim C2, counterexample: The claim says every non-positive batch size
raises a configuration error on non-empty input.  In the code, a *negative*
batch size makes `range(0, n, batch_size)` empty, so `create_batches`
returns a normal (empty) batch list instead of raising: on the non-empty
input `[0]` with batch size `-1` the result is `Except.ok []`, not an
error. -/
theorem create_batches_neg_returns_ok :
    create_batches [(0 : Nat)] (-1 : Int) = Except.ok [] := by
  rfl

/-- Claim C2, amended: For a non-positive batch size the code raises only in
the `batch_size = 0` case (a `ValueError` from `range`); for a strictly
negative batch size it silently returns an empty batch list, producing no
batches but also no error. -/
theorem create_batches_nonpos {α : Type} (l : List α) (b : Int) (hb : b ≤ 0) :
    (b = 0 ∧
      create_batches l b =
        Except.error "ValueError: range() arg 3 must not be zero") ∨
    (b < 0 ∧ create_batches l b = Except.ok []) := by
  rcases lt_or_eq_of_le hb with hlt | heq
  · right
    refine ⟨hlt, ?_⟩
    have h0 : b ≠ 0 := by omega
    simp [create_batches, h0, hlt]
  · left
    subst heq
    simp [create_batches]

/-- Witness for C2 (amended): batch size `0` on `[0]` raises the
`ValueError`. -/
theorem create_batches_nonpos_witness :
    ((0 : Int) = 0 ∧
      create_batches [(0 : Nat)] (0 : Int) =
        Except.error "ValueError: range() arg 3 must not be zero") ∨
    ((0 : Int) < 0 ∧ create_batches [(0 : Nat)] (0 : Int) = Except.ok []) :=
  create_batches_nonpos [(0 : Nat)] 0 (by decide)

/-! ### Data model of the reader output -/

/-- One conversion unit as produced by `read_metrics_to_simple_json`:
a dictionary with `name` and `expression` keys. -/
structure SimpleMetric where
  name : String
  expression : String
deriving DecidableEq, Repr

/-- Python `json.dumps(metrics_data)` on a list of `{name, expression}` dicts.
The payload is opaque to every claim (it is only handed to the external
translator), so the escaping of special characters inside the field values
is not reproduced here. -/
def json_dumps (metrics : List SimpleMetric) : String :=
  "[" ++
    pyJoin ", "
      (metrics.map (fun m =>
        "\x7b\"name\": \"" ++ m.name ++ "\", \"expression\": \"" ++
          m.expression ++ "\"\x7d")) ++
  "]"

/-! ### Batch Worker: `process_metrics_batch`

Source (`dax_uc_metric_view_converter.py`):
```
dax_expressions = json.dumps(metrics_data)
results = convert_dax_to_sparksql_uc_metric_view(dax_expressions)
with file_lock:
    saved_file = save_conversion_results(results)
return results, saved_file, len(metrics_data)
```
There is no `try`/`except` in this function: if the translator call or the
save raises, the exception propagates out of `process_metrics_batch`
(modelled as `Except.error`).  The external translator
`convert_dax_to_sparksql_uc_metric_view` and the effectful save are passed
in as function parameters; each may raise. -/

def process_metrics_batch
    (convert_dax_to_sparksql : String → Except String String)
    (save : String → Except String String)
    (metrics_data : List SimpleMetric) :
    Except String (String × String × Nat) := do
  let dax_expressions := json_dumps metrics_data
  let results ← convert_dax_to_sparksql dax_expressions
  let saved_file ← save results
  pure (results, saved_file, metrics_data.length)

/-- A successful worker call always reports `count = len(metrics_data)`. -/
theorem process_metrics_batch_count
    (convert : String → Except String String)
    (save : String → Except String String)
    (metrics_data : List SimpleMetric) (results saved_file : String)
    (count : Nat)
    (h : process_metrics_batch convert save metrics_data =
      Except.ok (results, saved_file, count)) :
    count = metrics_data.length := by
  simp only [process_metrics_batch, Bind.bind, Except.bind] at h
  cases hc : convert (json_dumps metrics_data) with
  | error e =>
    simp only [hc] at h
    exact Except.noConfusion h
  | ok r =>
    simp only [hc] at h
    cases hs : save r with
    | error e =>
      simp only [hs] at h
      exact Except.noConfusion h
    | ok f =>
      simp only [hs, pure, Except.pure] at h
      simp at h
      exact h.2.2.symm

/-! ### Batch Orchestrator: `process_batches_parallel`

Source structure:
```
for i, batch_data in enumerate(metric_batches, 1):
    future = executor.submit(process_metrics_batch, batch_name, batch_data, i)
    future_to_batch[future] = (i, batch_name, len(batch_data))
for future in as_completed(future_to_batch):
    try:
        results, saved_file, count = future.result()
        all_results.append({'batch': ..., 'batch_num': i, 'file': saved_file,
                            'count': count})
    except Exception as exc:
        all_results.append({'batch': ..., 'batch_num': i, 'file': None,
                            'count': 0, 'error': str(exc)})
all_results.sort(key=lambda x: x['batch_num'])
```
The nondeterministic completion order of `as_completed` is modelled by an
explicit `completion_order` parameter: a permutation of the 1-based batch
indices `[1, ..., n]`.  The worker submitted for index `i` is a function of
the index and the batch data. -/

/-- One entry of `all_results` (a Python dict): `'file'` is `None` and
`'error'` is present exactly for a failed batch. -/
structure BatchOutcome where
  batch : String
  batch_num : Nat
  file : Option String
  count : Nat
  error : Option String
deriving DecidableEq, Repr

/-- The entry appended to `all_results` when the future of batch `i`
completes: the `try`/`except` around `future.result()` turns a worker
exception into a failure record with `count = 0`. -/
def collect_outcome
    (worker : Nat → List SimpleMetric → Except String (String × String × Nat))
    (metric_batches : List (List SimpleMetric)) (i : Nat) : BatchOutcome :=
  match worker i (metric_batches.getD (i - 1) []) with
  | Except.ok (_, saved_file, count) =>
      { batch := "Batch " ++ toString i, batch_num := i,
        file := some saved_file, count := count, error := none }
  | Except.error exc =>
      { batch := "Batch " ++ toString i, batch_num := i,
        file := none, count := 0, error := some exc }

/-- The collected record of batch `i` always carries `batch_num = i`. -/
theorem collect_outcome_batch_num
    (worker : Nat → List SimpleMetric → Except String (String × String × Nat))
    (metric_batches : List (List SimpleMetric)) (i : Nat) :
    (collect_outcome worker metric_batches i).batch_num = i := by
  unfold collect_outcome
  cases worker i (metric_batches.getD (i - 1) []) with
  | ok v => rcases v with ⟨r, f, c⟩; rfl
  | error e => rfl

/-- The comparison used by `all_results.sort(key=lambda x: x['batch_num'])`. -/
def outcomeLE (a b : BatchOutcome) : Prop :=
  a.batch_num ≤ b.batch_num

/-- Strict version of `outcomeLE`, used to state uniqueness of the sorted
result. -/
def outcomeLT (a b : BatchOutcome) : Prop :=
  a.batch_num < b.batch_num

instance : DecidableRel outcomeLE := fun _ _ => Nat.decLe _ _

instance : IsTotal BatchOutcome outcomeLE := ⟨fun _ _ => Nat.le_total _ _⟩

instance : IsTrans BatchOutcome outcomeLE := ⟨fun _ _ _ => Nat.le_trans⟩

instance : IsAntisymm BatchOutcome outcomeLT :=
  ⟨fun _ _ h1 h2 => absurd h2 (Nat.lt_asymm h1)⟩

/-- `all_results.sort(key=lambda x: x['batch_num'])`: a stable sort by the
batch index (Python's Timsort; stability is irrelevant here because the
keys are pairwise distinct). -/
def sort_by_batch_num (l : List BatchOutcome) : List BatchOutcome :=
  List.insertionSort outcomeLE l

/-- The 1-based batch indices `[1, ..., n]` from
`enumerate(metric_batches, 1)`. -/
def batch_indices (n : Nat) : List Nat :=
  (List.range n).map (· + 1)

/-- The outcome list the orchestrator assembles once every future has
completed: one record per completed future in completion order, then the
sort by batch index. -/
def collected_outcomes
    (worker : Nat → List SimpleMetric → Except String (String × String × Nat))
    (metric_batches : List (List SimpleMetric))
    (completion_order : List Nat) : List BatchOutcome :=
  sort_by_batch_num
    (completion_order.map (collect_outcome worker metric_batches))

/-- The Orchestrator.  After the collection loop and before sorting and
returning, the source prints
`f"Average time per batch: {total_time/len(metric_batches):.2f} seconds"`;
on an empty batch list this division raises `ZeroDivisionError`, so the
function raises instead of returning a list.  For a non-empty batch list it
returns the collected outcomes sorted by batch index. -/
def process_batches_parallel
    (worker : Nat → List SimpleMetric → Except String (String × String × Nat))
    (metric_batches : List (List SimpleMetric))
    (completion_order : List Nat) : Except String (List BatchOutcome) :=
  if metric_batches.isEmpty then
    Except.error "ZeroDivisionError: division by zero"
  else
    Except.ok (collected_outcomes worker metric_batches completion_order)

/-- On a non-empty batch list the orchestrator returns normally. -/
theorem process_batches_parallel_ok
    (worker : Nat → List SimpleMetric → Except String (String × String × Nat))
    (metric_batches : List (List SimpleMetric))
    (completion_order : List Nat) (hne : metric_batches ≠ []) :
    process_batches_parallel worker metric_batches completion_order =
      Except.ok (collected_outcomes worker metric_batches completion_order)
    := by
  unfold process_batches_parallel
  have hfalse : metric_batches.isEmpty = false := by
    cases metric_batches with
    | nil => exact absurd rfl hne
    | cons a t => rfl
  rw [hfalse]
  rfl

theorem batch_indices_nodup (n : Nat) : (batch_indices n).Nodup := by
  apply List.Nodup.map (add_left_injective 1)
  exact List.nodup_range n

theorem batch_indices_pairwise_lt (n : Nat) :
    (batch_indices n).Pairwise (· < ·) := by
  apply List.pairwise_map.mpr
  exact (List.pairwise_lt_range n).imp (fun h => Nat.add_lt_add_right h 1)

theorem batch_indices_length (n : Nat) : (batch_indices n).length = n := by
  simp [batch_indices]

/-- A sorted outcome list with pairwise-distinct batch indices is strictly
sorted. -/
theorem sorted_lt_of_sorted_le_nodup {l : List BatchOutcome}
    (hs : l.Sorted outcomeLE)
    (hn : (l.map (fun o => o.batch_num)).Nodup) :
    l.Sorted outcomeLT := by
  have hne : l.Pairwise (fun a b => a.batch_num ≠ b.batch_num) :=
    List.pairwise_map.mp hn
  exact (hs.and hne).imp (fun h => Nat.lt_of_le_of_ne h.1 h.2)

/-- The collected-and-sorted outcome list has one entry per batch and is
exactly the per-index outcome list in index order, independent of the
completion order.  Shared stepping stone for the orchestrator claims. -/
theorem collected_outcomes_ordered
    (worker : Nat → List SimpleMetric → Except String (String × String × Nat))
    (metric_batches : List (List SimpleMetric))
    (completion_order : List Nat)
    (horder : completion_order.Perm (batch_indices metric_batches.length)) :
    (collected_outcomes worker metric_batches completion_order).length =
      metric_batches.length ∧
    (collected_outcomes worker metric_batches completion_order).map
        (fun o => o.batch_num) =
      batch_indices metric_batches.length ∧
    collected_outcomes worker metric_batches completion_order =
      (batch_indices metric_batches.length).map
        (collect_outcome worker metric_batches) := by
  set n := metric_batches.length with hn
  set f := collect_outcome worker metric_batches with hf
  have hkey : ∀ (m : List Nat), (m.map f).map (fun o => o.batch_num) = m := by
    intro m
    rw [List.map_map]
    have h2 : List.map ((fun o => o.batch_num) ∘ f) m = List.map id m :=
      List.map_congr_left
        (fun i _ => collect_outcome_batch_num worker metric_batches i)
    rw [h2, List.map_id]
  have hperm :
      (collected_outcomes worker metric_batches completion_order).Perm
        ((batch_indices n).map f) :=
    (List.perm_insertionSort outcomeLE _).trans (horder.map f)
  have hpermkeys :
      ((collected_outcomes worker metric_batches
          completion_order).map (fun o => o.batch_num)).Perm
        (batch_indices n) := by
    have h3 := hperm.map (fun o => o.batch_num)
    rwa [hkey (batch_indices n)] at h3
  have hs1 : (collected_outcomes worker metric_batches
      completion_order).Sorted outcomeLT :=
    sorted_lt_of_sorted_le_nodup
      (List.sorted_insertionSort outcomeLE _)
      (hpermkeys.nodup_iff.mpr (batch_indices_nodup n))
  have hs2 : (((batch_indices n).map f)).Sorted outcomeLT := by
    apply sorted_lt_of_sorted_le_nodup
    · show ((batch_indices n).map f).Pairwise outcomeLE
      apply List.pairwise_map.mpr
      apply (batch_indices_pairwise_lt n).imp
      intro a b hab
      show outcomeLE (f a) (f b)
      unfold outcomeLE
      rw [hf, collect_outcome_batch_num, collect_outcome_batch_num]
      exact Nat.le_of_lt hab
    · rw [hkey (batch_indices n)]
      exact batch_indices_nodup n
  have heq : collected_outcomes worker metric_batches completion_order =
      (batch_indices n).map f :=
    List.eq_of_perm_of_sorted hperm hs1 hs2
  refine ⟨?_, ?_, heq⟩
  · rw [heq, List.length_map, batch_indices_length]
  · rw [heq, hkey (batch_indices n)]

/-- Claim C3, counterexample: the claim quantifies over *every* input batch
list, but on the empty one the orchestrator never returns an outcome list:
its closing progress report divides the elapsed time by
`len(metric_batches)` and raises `ZeroDivisionError`. -/
theorem process_batches_parallel_empty_raises :
    process_batches_parallel
        (fun _ b => Except.ok ("text", "file", b.length))
        ([] : List (List SimpleMetric)) [] =
      Except.error "ZeroDivisionError: division by zero" := rfl

/-- Claim C3, amended: for every *non-empty* batch list and every
completion order (any permutation of the 1-based indices), the orchestrator
returns an outcome list with exactly one outcome per input batch, sorted by
original batch index — in fact exactly the per-index outcome list in index
order, independent of the completion order.  (On the empty batch list it
raises `ZeroDivisionError` instead of returning.) -/
theorem process_batches_parallel_ordered
    (worker : Nat → List SimpleMetric → Except String (String × String × Nat))
    (metric_batches : List (List SimpleMetric))
    (completion_order : List Nat)
    (hne : metric_batches ≠ [])
    (horder : completion_order.Perm (batch_indices metric_batches.length)) :
    ∃ outcomes,
      process_batches_parallel worker metric_batches completion_order =
        Except.ok outcomes ∧
      outcomes.length = metric_batches.length ∧
      outcomes.map (fun o => o.batch_num) =
        batch_indices metric_batches.length ∧
      outcomes = (batch_indices metric_batches.length).map
        (collect_outcome worker metric_batches) := by
  obtain ⟨h1, h2, h3⟩ :=
    collected_outcomes_ordered worker metric_batches completion_order horder
  exact ⟨collected_outcomes worker metric_batches completion_order,
    process_batches_parallel_ok worker metric_batches completion_order hne,
    h1, h2, h3⟩

/-- Witness for C3 (amended): three batches completing in the order 2, 3, 1
(batch 2 failing) still give three outcomes listed as batches 1, 2, 3. -/
theorem process_batches_parallel_ordered_witness :
    ∃ outcomes,
      process_batches_parallel
          (fun i b => if i = 2 then Except.error "boom"
                      else Except.ok ("text", "file", b.length))
          [[⟨"a", "1"⟩], [⟨"b", "2"⟩], [⟨"c", "3"⟩]] [2, 3, 1] =
        Except.ok outcomes ∧
      outcomes.length = 3 ∧
      outcomes.map (fun o => o.batch_num) = batch_indices 3 ∧
      outcomes = (batch_indices 3).map
        (collect_outcome
          (fun i b => if i = 2 then Except.error "boom"
                      else Except.ok ("text", "file", b.length))
          [[⟨"a", "1"⟩], [⟨"b", "2"⟩], [⟨"c", "3"⟩]]) :=
  process_batches_parallel_ordered
    (fun i b => if i = 2 then Except.error "boom"
                else Except.ok ("text", "file", b.length))
    [[⟨"a", "1"⟩], [⟨"b", "2"⟩], [⟨"c", "3"⟩]] [2, 3, 1] (by decide)
    (by decide)

/-! ### Unit counting across outcomes (claims C4, C5) -/

/-- The sum of the `'count'` fields over an outcome list. -/
def total_unit_count (outcomes : List BatchOutcome) : Nat :=
  (outcomes.map (fun o => o.count)).sum

/-- The record collected for a successful future carries the worker's
reported count. -/
theorem collect_outcome_count_ok
    (worker : Nat → List SimpleMetric → Except String (String × String × Nat))
    (metric_batches : List (List SimpleMetric)) (i : Nat)
    (r fp : String) (c : Nat)
    (h : worker i (metric_batches.getD (i - 1) []) = Except.ok (r, fp, c)) :
    (collect_outcome worker metric_batches i).count = c := by
  unfold collect_outcome
  rw [h]

/-- Indexing a list by `range` of its length recovers a plain `map`. -/
theorem range_map_getD {β γ : Type} (l : List β) (d : β) (g : β → γ) :
    (List.range l.length).map (fun j => g (l.getD j d)) = l.map g := by
  induction l with
  | nil => simp
  | cons a t ih =>
    rw [List.length_cons, List.range_succ_eq_map]
    simp only [List.map_cons, List.getD_cons_zero, List.map_map]
    congr 1

/-- Claim C4, counterexample: The claim says the unit counts recorded across
all outcomes, successes and failures together, always sum to the total
number of input conversion units.  In the code a failed batch is recorded
with `'count': 0`, so the sum drops the units of every failed batch: a run
with a single one-unit batch whose translator call raises yields outcomes
summing to `0`, while the input holds `1` unit. -/
theorem total_unit_count_counterexample :
    Except.map total_unit_count
        (process_batches_parallel
          (fun _ b =>
            process_metrics_batch
              (fun _ => Except.error "translator unavailable")
              (fun _ => Except.ok "uc_converted_metrics/converted.txt") b)
          [[⟨"Total Orders", "SUM(OrderCount)"⟩]] [1]) = Except.ok 0 ∧
    ([[(⟨"Total Orders", "SUM(OrderCount)"⟩ : SimpleMetric)]].flatten).length
      = 1 := by
  constructor <;> rfl

/-- Summing the batch lengths over the 1-based indices gives the total
number of input units. -/
theorem sum_batch_lengths (metric_batches : List (List SimpleMetric)) :
    ((batch_indices metric_batches.length).map
      (fun i => (metric_batches.getD (i - 1) []).length)).sum =
      metric_batches.flatten.length := by
  unfold batch_indices
  rw [List.map_map]
  have hrw : (List.range metric_batches.length).map
      ((fun i => (metric_batches.getD (i - 1) []).length) ∘ (· + 1)) =
      (List.range metric_batches.length).map
        (fun j => (metric_batches.getD j []).length) := by
    apply List.map_congr_left
    intro j _
    simp
  rw [hrw, range_map_getD metric_batches [] List.length,
    List.length_flatten]

/-- When every collected record of the run carries the length of its batch
as its count, the counts sum to the total number of input units.  Shared
stepping stone for the claims about unit totals. -/
theorem total_unit_count_eq_of_counts
    (worker : Nat → List SimpleMetric → Except String (String × String × Nat))
    (metric_batches : List (List SimpleMetric))
    (completion_order : List Nat)
    (horder : completion_order.Perm (batch_indices metric_batches.length))
    (hcount : ∀ i ∈ batch_indices metric_batches.length,
        (collect_outcome worker metric_batches i).count =
          (metric_batches.getD (i - 1) []).length) :
    total_unit_count
        (collected_outcomes worker metric_batches completion_order) =
      metric_batches.flatten.length := by
  set n := metric_batches.length with hn
  set f := collect_outcome worker metric_batches with hf
  have hsort : total_unit_count
      (collected_outcomes worker metric_batches completion_order) =
      total_unit_count (completion_order.map f) := by
    unfold total_unit_count
    exact ((List.perm_insertionSort outcomeLE _).map (fun o => o.count)).sum_eq
  have hord : total_unit_count (completion_order.map f) =
      total_unit_count ((batch_indices n).map f) := by
    unfold total_unit_count
    rw [List.map_map, List.map_map]
    exact (horder.map ((fun o => o.count) ∘ f)).sum_eq
  have hcounts : ((batch_indices n).map f).map (fun o => o.count) =
      (batch_indices n).map (fun i => (metric_batches.getD (i - 1) []).length)
      := by
    rw [List.map_map]
    exact List.map_congr_left hcount
  have hlen := sum_batch_lengths metric_batches
  rw [hsort, hord]
  unfold total_unit_count at hcounts ⊢
  rw [hcounts, hlen]

/-- Claim C4, amended: A failed batch contributes `0` units, so in general
the outcome counts sum to the units of the *successful* batches only; for a
non-empty run in which every worker call succeeds, the orchestrator returns
outcomes whose counts sum to the total number of input conversion units.
(On an empty batch list the orchestrator raises `ZeroDivisionError` and
returns no outcomes at all.) -/
theorem total_unit_count_all_success
    (convert : Nat → String → Except String String)
    (save : Nat → String → Except String String)
    (metric_batches : List (List SimpleMetric))
    (completion_order : List Nat)
    (hne : metric_batches ≠ [])
    (horder : completion_order.Perm (batch_indices metric_batches.length))
    (hok : ∀ i ∈ batch_indices metric_batches.length,
        ∃ r fp,
          process_metrics_batch (convert i) (save i)
              (metric_batches.getD (i - 1) []) =
            Except.ok (r, fp, (metric_batches.getD (i - 1) []).length)) :
    ∃ outcomes,
      process_batches_parallel
          (fun i b => process_metrics_batch (convert i) (save i) b)
          metric_batches completion_order = Except.ok outcomes ∧
      total_unit_count outcomes = metric_batches.flatten.length := by
  refine ⟨_, process_batches_parallel_ok _ _ _ hne, ?_⟩
  apply total_unit_count_eq_of_counts _ _ _ horder
  intro i hi
  obtain ⟨r, fp, hokk⟩ := hok i hi
  exact collect_outcome_count_ok _ metric_batches i r fp _ hokk

/-- Witness for C4 (amended): two all-successful batches of sizes 2 and 1
give outcomes whose counts sum to 3, the total number of input units. -/
theorem total_unit_count_all_success_witness :
    ∃ outcomes,
      process_batches_parallel
          (fun i b =>
            process_metrics_batch
              ((fun _ : Nat => fun _ : String =>
                  Except.ok (ε := String) "converted text") i)
              ((fun _ : Nat => fun _ : String =>
                  Except.ok (ε := String)
                    "uc_converted_metrics/converted.txt") i) b)
          [[⟨"a", "1"⟩, ⟨"b", "2"⟩], [⟨"c", "3"⟩]] [2, 1] =
        Except.ok outcomes ∧
      total_unit_count outcomes =
        ([[⟨"a", "1"⟩, ⟨"b", "2"⟩], [⟨"c", "3"⟩]] :
          List (List SimpleMetric)).flatten.length :=
  total_unit_count_all_success
    (fun _ => fun _ => Except.ok "converted text")
    (fun _ => fun _ => Except.ok "uc_converted_metrics/converted.txt")
    [[⟨"a", "1"⟩, ⟨"b", "2"⟩], [⟨"c", "3"⟩]] [2, 1]
    (by decide)
    (by decide)
    (by
      intro i hi
      fin_cases hi <;>
        exact ⟨"converted text", "uc_converted_metrics/converted.txt", rfl⟩)

/-- Claim C5, counterexample: The claim says the worker
`process_metrics_batch` itself returns a failure `BatchOutcome` and never
raises past its boundary.  The function body has no `try`/`except`: when
the translator call raises, the exception propagates out of
`process_metrics_batch` to its caller (modelled as `Except.error`), and no
`BatchOutcome` is produced by the worker. -/
theorem process_metrics_batch_raises :
    process_metrics_batch (fun _ => Except.error "translator failure")
        (fun _ => Except.ok "uc_converted_metrics/converted.txt")
        [⟨"Total Orders", "SUM(OrderCount)"⟩] =
      Except.error "translator failure" := rfl

/-- Claim C5, amended: A worker failure escapes `process_metrics_batch` as
an exception; it is the Orchestrator that catches it (in the `try`/`except`
around `future.result()`) and converts it into a failure record with the
exception's description, `'file': None` and `'count': 0`.  From the
Orchestrator's caller's point of view failures are data: on any (non-empty)
run the orchestrator returns normally with one failure record per raising
worker. -/
theorem orchestrator_catches_worker_exception
    (worker : Nat → List SimpleMetric → Except String (String × String × Nat))
    (metric_batches : List (List SimpleMetric))
    (completion_order : List Nat) (i : Nat) (e : String)
    (hne : metric_batches ≠ [])
    (hi : i ∈ completion_order)
    (he : worker i (metric_batches.getD (i - 1) []) = Except.error e) :
    ∃ outcomes,
      process_batches_parallel worker metric_batches completion_order =
        Except.ok outcomes ∧
      ({ batch := "Batch " ++ toString i, batch_num := i, file := none,
         count := 0, error := some e } : BatchOutcome) ∈ outcomes := by
  refine ⟨_, process_batches_parallel_ok _ _ _ hne, ?_⟩
  unfold collected_outcomes sort_by_batch_num
  rw [List.mem_insertionSort]
  apply List.mem_map.mpr
  refine ⟨i, hi, ?_⟩
  unfold collect_outcome
  rw [he]

/-- Witness for C5 (amended): a raising worker for batch 1 yields the
corresponding failure record in the orchestrator's result. -/
theorem orchestrator_catches_worker_exception_witness :
    ∃ outcomes,
      process_batches_parallel (fun _ _ => Except.error "boom")
          [[⟨"Total Orders", "SUM(OrderCount)"⟩]] [1] =
        Except.ok outcomes ∧
      ({ batch := "Batch " ++ toString 1, batch_num := 1, file := none,
         count := 0, error := some "boom" } : BatchOutcome) ∈ outcomes :=
  orchestrator_catches_worker_exception (fun _ _ => Except.error "boom")
    [[⟨"Total Orders", "SUM(OrderCount)"⟩]] [1] 1 "boom" (by decide)
    (by decide) rfl

/-! ### Artifact persistence: `save_conversion_results`

Source:
```
timestamp = datetime.now().strftime("%Y%m%d_%H%M%S")
filename = f"converted_metrics_{timestamp}.txt"
filepath = os.path.join(output_folder, filename)
with open(filepath, 'w', ...) as file:
    file.write(f"# DAX to SparkSQL UC Metric View Conversion Results\n")
    file.write(f"# Generated on: {datetime.now().strftime('%Y-%m-%d %H:%M:%S')}\n")
    total_conversions = sum(1 for line in results.splitlines() if 'name:' in line)
    file.write(f"# Total conversions: {total_conversions}\n")
    file.write("\n" + "="*80 + "\n\n")
    file.write(results)
return filepath
```
The two clock readings are the `timestamp` / `now_str` parameters;
`os.path.join` with a relative folder name is folder-slash-filename.  The
written file is returned as data (its path, bare filename and lines). -/

/-- A persisted per-batch artifact. -/
structure SavedArtifact where
  filepath : String
  filename : String
  lines : List String
deriving DecidableEq, Repr

/-- Python `'name:' in line`, the per-unit record marker test used both by
`save_conversion_results` and by `combine_all_results`. -/
def line_has_marker (line : String) : Bool :=
  pyContains line "name:"

/-- Number of lines of a file that contain the `'name:'` marker. -/
def count_marker_lines (lines : List String) : Nat :=
  (lines.filter line_has_marker).length

/-- Python `sum(1 for line in results.splitlines() if 'name:' in line)`. -/
def count_name_lines (results : String) : Nat :=
  count_marker_lines (pySplitlines results)

/-- The `"=" * 80` separator line of a per-batch artifact header. -/
def header_sep : String :=
  String.mk (List.replicate 80 (Char.ofNat 61))

def save_conversion_results (results : String) (timestamp now_str : String)
    (output_folder : String) : SavedArtifact :=
  let filename := "converted_metrics_" ++ timestamp ++ ".txt"
  let filepath := output_folder ++ "/" ++ filename
  let total_conversions := count_name_lines results
  { filepath := filepath
    filename := filename
    lines :=
      ["# DAX to SparkSQL UC Metric View Conversion Results",
       "# Generated on: " ++ now_str,
       "# Total conversions: " ++ toString total_conversions,
       "",
       header_sep,
       ""] ++ pySplitlines results }

/-- Claim C6, counterexample: the artifact filename is
`converted_metrics_<timestamp>.txt` with a one-second-resolution timestamp,
so two distinct successful batches saved within the same wall-clock second
receive the *same* artifact path (the second write overwrites the first):
name uniqueness across the run is not guaranteed under concurrency.  (The
file lock serialises the writes but does not separate the timestamps.) -/
theorem artifact_name_collision :
    (save_conversion_results "results of batch A" "20250101_120000"
        "2025-01-01 12:00:00" "uc_converted_metrics").filepath =
      (save_conversion_results "results of batch B" "20250101_120000"
        "2025-01-01 12:00:00" "uc_converted_metrics").filepath := rfl

/-- Claim C6, amended: artifact paths are distinct exactly when the
second-resolution save timestamps are distinct — uniqueness across the run
holds only if no two saves fall into the same second; and each success
outcome records `unitCount = len(batch)`. -/
theorem artifact_names_and_counts :
    (∀ r1 r2 ts1 ts2 n1 n2 folder, ts1 ≠ ts2 →
      (save_conversion_results r1 ts1 n1 folder).filepath ≠
        (save_conversion_results r2 ts2 n2 folder).filepath) ∧
    (∀ (convert save : String → Except String String)
        (b : List SimpleMetric) (r fp : String) (c : Nat),
      process_metrics_batch convert save b = Except.ok (r, fp, c) →
      c = b.length) := by
  constructor
  · intro r1 r2 ts1 ts2 n1 n2 folder hne heq
    apply hne
    have hdata := congrArg String.data heq
    simp only [save_conversion_results, String.data_append] at hdata
    have h1 := List.append_cancel_left hdata
    have h2 := List.append_cancel_right h1
    have h3 := List.append_cancel_left h2
    cases ts1; cases ts2
    exact congrArg String.mk (by simpa using h3)
  · intro convert save b r fp c h
    exact process_metrics_batch_count convert save b r fp c h

/-- Witness for C6: distinct timestamps give distinct paths, and a
successful one-unit batch reports count 1. -/
theorem artifact_names_and_counts_witness :
    (save_conversion_results "A" "20250101_120000" "2025-01-01 12:00:00"
        "uc_converted_metrics").filepath ≠
      (save_conversion_results "B" "20250101_120001" "2025-01-01 12:00:01"
        "uc_converted_metrics").filepath ∧
    (1 : Nat) = ([⟨"Total Orders", "SUM(OrderCount)"⟩] :
      List SimpleMetric).length :=
  ⟨artifact_names_and_counts.1 "A" "B" "20250101_120000" "20250101_120001"
      "2025-01-01 12:00:00" "2025-01-01 12:00:01" "uc_converted_metrics"
      (by decide),
    artifact_names_and_counts.2 (fun _ => Except.ok "text")
      (fun _ => Except.ok "uc_converted_metrics/x.txt")
      [⟨"Total Orders", "SUM(OrderCount)"⟩] "text"
      "uc_converted_metrics/x.txt" 1 rfl⟩

/-! ### Result Combiner: `combine_all_results`

Source:
```
pattern = os.path.join(output_folder, "converted_metrics_*.txt")
result_files = sorted(glob.glob(pattern))
if not result_files:
    return None
...
```
The directory is modelled as a list of `(filename, file lines)` pairs; the
glob pattern matches the filenames that start with `converted_metrics_`
and end with `.txt` (`*` never matches a path separator, and no filename in
the directory contains one).  `sorted` on the globbed paths is a
lexicographic sort; since all paths share the directory prefix this equals
sorting the bare filenames.  The combined file is returned as data instead
of being written; `None` models the no-op return. -/

/-- Does a filename match the glob `converted_metrics_*.txt`? -/
def is_batch_artifact (filename : String) : Bool :=
  pyStartsWith filename "converted_metrics_" && pyEndsWith filename ".txt"

/-- Lexicographic comparison of character lists, as Python compares
strings. -/
def lexLeB : List Char → List Char → Bool
  | [], _ => true
  | _ :: _, [] => false
  | a :: as, b :: bs => if a = b then lexLeB as bs else decide (a < b)

/-- Ordering of directory entries by filename, used for `sorted(...)`. -/
def fileLE (a b : String × List String) : Prop :=
  lexLeB a.1.toList b.1.toList = true

instance : DecidableRel fileLE := fun _ _ => Bool.decEq _ _

/-- Python `sorted(result_files)`. -/
def sort_result_files (files : List (String × List String)) :
    List (String × List String) :=
  List.insertionSort fileLE files

/-- The index of the first line that is non-blank after stripping and does
not start with `'#'` or `'='` — the header-skipping scan of the combiner
(`content_start` stays `0` when no such line exists, as in the source). -/
def content_start (lines : List String) : Nat :=
  (lines.findIdx? (fun line =>
    !(pyStrip line == "") && !(pyStartsWith line "#") &&
      !(pyStartsWith line "="))).getD 0

/-- The separator block plus body appended to the combined file for the
`i`-th (1-based) source artifact. -/
def batch_section (i : Nat) (file : String × List String) : List String :=
  ["", String.mk (List.replicate 60 (Char.ofNat 35)),
   "# BATCH " ++ toString i ++ " - Source: " ++ file.1,
   String.mk (List.replicate 60 (Char.ofNat 35)), ""]
    ++ file.2.drop (content_start file.2) ++ [""]

/-- The combined artifact: its path, its lines and the two counts reported
in its summary footer. -/
structure CombinedFile where
  filepath : String
  lines : List String
  total_conversions : Nat
  source_count : Nat
deriving DecidableEq, Repr

def combine_all_results (dir_files : List (String × List String))
    (timestamp now_str : String) (output_folder : String) :
    Option CombinedFile :=
  let result_files :=
    sort_result_files (dir_files.filter (fun f => is_batch_artifact f.1))
  if result_files.isEmpty then none
  else
    let combined_filename := "combined_all_metrics_" ++ timestamp ++ ".txt"
    let combined_filepath := output_folder ++ "/" ++ combined_filename
    let total_conversions :=
      (result_files.map (fun f => count_marker_lines f.2)).sum
    some
      { filepath := combined_filepath
        lines :=
          ["# COMBINED DAX to SparkSQL UC Metric View Conversion Results",
           "# Generated on: " ++ now_str,
           "# Combined from " ++ toString result_files.length ++
             " batch files",
           "", String.mk (List.replicate 100 (Char.ofNat 61)), ""]
          ++ ((result_files.enumFrom 1).map
                (fun p => batch_section p.1 p.2)).flatten
          ++ ["", String.mk (List.replicate 100 (Char.ofNat 61)),
              "# SUMMARY: Total " ++ toString total_conversions ++
                " metrics converted from " ++
                toString result_files.length ++ " batches",
              "# Combined file generated: " ++ now_str,
              String.mk (List.replicate 100 (Char.ofNat 61))]
        total_conversions := total_conversions
        source_count := result_files.length }

/-- Claim C7: when no file in the artifact directory matches the per-batch
naming convention `converted_metrics_*.txt`, `combine_all_results` returns
the absent value (`None`) and writes nothing — the `some` branch that
builds the combined file is never reached. -/
theorem combine_all_results_absent
    (dir_files : List (String × List String))
    (timestamp now_str output_folder : String)
    (h : ∀ f ∈ dir_files, is_batch_artifact f.1 = false) :
    combine_all_results dir_files timestamp now_str output_folder = none := by
  have hfil : dir_files.filter (fun f => is_batch_artifact f.1) = [] := by
    rw [List.filter_eq_nil_iff]
    intro a ha
    simp [h a ha]
  unfold combine_all_results
  rw [hfil]
  rfl

/-- Witness for C7: a directory holding an unrelated file and a previous
combined artifact (which does not match the per-batch convention) yields
no combined file. -/
theorem combine_all_results_absent_witness :
    combine_all_results
        [("README.md", ["docs"]),
         ("combined_all_metrics_20250101_120000.txt", ["old run"])]
        "20250102_090000" "2025-01-02 09:00:00" "uc_converted_metrics" =
      none :=
  combine_all_results_absent
    [("README.md", ["docs"]),
     ("combined_all_metrics_20250101_120000.txt", ["old run"])]
    "20250102_090000" "2025-01-02 09:00:00" "uc_converted_metrics"
    (by decide)

/-! ### Claim C8: the combined total versus the outcome counts -/

theorem listStartsWith_append (p r : List Char) :
    listStartsWith p (p ++ r) = true := by
  induction p with
  | nil => rfl
  | cons a as ih => simp [listStartsWith, ih]

/-- The filename produced by `save_conversion_results` matches the glob of
the combiner. -/
theorem is_batch_artifact_save (results ts now_str folder : String) :
    is_batch_artifact
      (save_conversion_results results ts now_str folder).filename = true := by
  show is_batch_artifact ("converted_metrics_" ++ ts ++ ".txt") = true
  unfold is_batch_artifact pyStartsWith pyEndsWith
  rw [Bool.and_eq_true]
  constructor
  · show listStartsWith "converted_metrics_".data
      (("converted_metrics_" ++ ts ++ ".txt").data) = true
    rw [String.data_append, String.data_append, List.append_assoc]
    exact listStartsWith_append _ _
  · show listStartsWith ".txt".data.reverse
      (("converted_metrics_" ++ ts ++ ".txt").data.reverse) = true
    rw [String.data_append, List.reverse_append]
    exact listStartsWith_append _ _

/-- The lines written by `save_conversion_results`, with the `let`s
unfolded. -/
theorem save_lines (results ts now_str folder : String) :
    (save_conversion_results results ts now_str folder).lines =
      ["# DAX to SparkSQL UC Metric View Conversion Results",
       "# Generated on: " ++ now_str,
       "# Total conversions: " ++ toString (count_name_lines results),
       "", header_sep, ""] ++ pySplitlines results := rfl

/-- The header block of a saved artifact contributes no marker lines, so
counting `'name:'` lines over the whole file counts them over the
translated text alone. -/
theorem count_marker_lines_save (results ts now_str folder : String)
    (hgen : line_has_marker ("# Generated on: " ++ now_str) = false)
    (htot : line_has_marker ("# Total conversions: " ++
      toString (count_name_lines results)) = false) :
    count_marker_lines (save_conversion_results results ts now_str
      folder).lines = count_name_lines results := by
  have h1 : line_has_marker
      "# DAX to SparkSQL UC Metric View Conversion Results" = false := by
    decide
  have h2 : line_has_marker "" = false := by decide
  have h3 : line_has_marker header_sep = false := by decide
  rw [save_lines, count_marker_lines, List.filter_append]
  have hhead : List.filter line_has_marker
      ["# DAX to SparkSQL UC Metric View Conversion Results",
       "# Generated on: " ++ now_str,
       "# Total conversions: " ++ toString (count_name_lines results),
       "", header_sep, ""] = [] := by
    simp [List.filter, h1, h2, h3, hgen, htot]
  rw [hhead, List.nil_append]
  rfl

/-- Claim C8, counterexample: the "reported total" of the combined file is
the count of `'name:'` marker lines found in the artifacts, not the
recorded unit counts.  A run whose single one-unit batch succeeds but whose
translator returns text without the marker produces an outcome count sum of
`1` while the combined artifact reports a total of `0`. -/
theorem combine_total_counterexample :
    (combine_all_results
        [((save_conversion_results "no marker in this text"
            "20250101_120000" "2025-01-01 12:00:00"
            "uc_converted_metrics").filename,
          (save_conversion_results "no marker in this text"
            "20250101_120000" "2025-01-01 12:00:00"
            "uc_converted_metrics").lines)]
        "20250101_130000" "2025-01-01 13:00:00"
        "uc_converted_metrics").map (fun c => c.total_conversions) =
      some 0 ∧
    Except.map total_unit_count
        (process_batches_parallel
          (fun _ b => process_metrics_batch
            (fun _ => Except.ok "no marker in this text")
            (fun r => Except.ok
              (save_conversion_results r "20250101_120000"
                "2025-01-01 12:00:00" "uc_converted_metrics").filepath) b)
          [[⟨"Total Orders", "SUM(OrderCount)"⟩]] [1]) = Except.ok 1 := by
  constructor <;> rfl

/-- When the directory holds only matching artifacts and at least one of
them, the combiner returns a combined file whose reported total is the sum
of the per-file marker-line counts. -/
theorem combine_all_results_some (dir_files : List (String × List String))
    (timestamp now_str output_folder : String)
    (hfil : dir_files.filter (fun f => is_batch_artifact f.1) = dir_files)
    (hempty : (sort_result_files dir_files).isEmpty = false) :
    ∃ c, combine_all_results dir_files timestamp now_str output_folder =
        some c ∧
      c.total_conversions =
        ((sort_result_files dir_files).map
          (fun f => count_marker_lines f.2)).sum := by
  simp only [combine_all_results]
  rw [hfil, hempty]
  simp

/-- Claim C8, amended: in a run in which every worker succeeds, whose
artifacts are exactly the run's saved files (with distinct names), and in
which each translated text contains exactly one `'name:'` marker line per
unit of its batch (the output format the prompt requests), the combined
artifact's reported total equals the sum of the `unitCount` fields across
the run's outcomes.  The hypotheses on the clock strings record that the
header's timestamp lines contain no marker, which holds for every real
`strftime` output. -/
theorem combine_total_all_success
    (metric_batches : List (List SimpleMetric))
    (completion_order : List Nat)
    (texts tss nows : Nat → String)
    (timestamp now_str folder : String)
    (hne : metric_batches ≠ [])
    (horder : completion_order.Perm (batch_indices metric_batches.length))
    (hmark : ∀ i ∈ batch_indices metric_batches.length,
        count_name_lines (texts i) =
          (metric_batches.getD (i - 1) []).length)
    (hgen : ∀ i ∈ batch_indices metric_batches.length,
        line_has_marker ("# Generated on: " ++ nows i) = false)
    (htot : ∀ i ∈ batch_indices metric_batches.length,
        line_has_marker ("# Total conversions: " ++
          toString (count_name_lines (texts i))) = false) :
    ∃ c outcomes,
      combine_all_results
        ((batch_indices metric_batches.length).map (fun i =>
          ((save_conversion_results (texts i) (tss i) (nows i)
              folder).filename,
           (save_conversion_results (texts i) (tss i) (nows i)
              folder).lines)))
        timestamp now_str folder = some c ∧
      process_batches_parallel
          (fun i b => process_metrics_batch
            (fun _ => Except.ok (texts i))
            (fun r => Except.ok
              (save_conversion_results r (tss i) (nows i)
                folder).filepath) b)
          metric_batches completion_order = Except.ok outcomes ∧
      c.total_conversions = total_unit_count outcomes := by
  set n := metric_batches.length with hn
  set dir := (batch_indices n).map (fun i =>
    ((save_conversion_results (texts i) (tss i) (nows i) folder).filename,
     (save_conversion_results (texts i) (tss i) (nows i) folder).lines))
    with hdir
  have htotal : total_unit_count
      (collected_outcomes
        (fun i b => process_metrics_batch
          (fun _ => Except.ok (texts i))
          (fun r => Except.ok
            (save_conversion_results r (tss i) (nows i) folder).filepath) b)
        metric_batches completion_order) =
      metric_batches.flatten.length := by
    apply total_unit_count_eq_of_counts _ _ _ horder
    intro i hi
    exact collect_outcome_count_ok _ metric_batches i (texts i)
      (save_conversion_results (texts i) (tss i) (nows i) folder).filepath
      _ rfl
  have hfil : dir.filter (fun f => is_batch_artifact f.1) = dir := by
    rw [List.filter_eq_self]
    intro a ha
    rw [hdir] at ha
    obtain ⟨i, _, hmk⟩ := List.mem_map.mp ha
    rw [← hmk]
    exact is_batch_artifact_save (texts i) (tss i) (nows i) folder
  have hlensort : (sort_result_files dir).length = n := by
    unfold sort_result_files
    rw [(List.perm_insertionSort fileLE dir).length_eq, hdir,
      List.length_map, batch_indices_length]
  have hne2 : sort_result_files dir ≠ [] := by
    intro h0
    have h1 : (sort_result_files dir).length = 0 := by rw [h0]; rfl
    rw [hlensort, hn] at h1
    exact hne (List.length_eq_zero.mp h1)
  have hempty : (sort_result_files dir).isEmpty = false := by
    cases hsr : sort_result_files dir with
    | nil => exact absurd hsr hne2
    | cons a t => rfl
  have hsum : ((sort_result_files dir).map
      (fun f => count_marker_lines f.2)).sum =
      metric_batches.flatten.length := by
    unfold sort_result_files
    rw [((List.perm_insertionSort fileLE dir).map
      (fun f => count_marker_lines f.2)).sum_eq]
    rw [hdir, List.map_map]
    have hcong : (batch_indices n).map
        ((fun f : String × List String => count_marker_lines f.2) ∘
          (fun i =>
            ((save_conversion_results (texts i) (tss i) (nows i)
                folder).filename,
             (save_conversion_results (texts i) (tss i) (nows i)
                folder).lines))) =
        (batch_indices n).map
          (fun i => (metric_batches.getD (i - 1) []).length) := by
      apply List.map_congr_left
      intro i hi
      show count_marker_lines
        (save_conversion_results (texts i) (tss i) (nows i) folder).lines =
        (metric_batches.getD (i - 1) []).length
      rw [count_marker_lines_save (texts i) (tss i) (nows i) folder
        (hgen i hi) (htot i hi)]
      exact hmark i hi
    rw [hcong, hn, sum_batch_lengths]
  obtain ⟨c, hc, hct⟩ :=
    combine_all_results_some dir timestamp now_str folder hfil hempty
  refine ⟨c, _, hc, process_batches_parallel_ok _ _ _ hne, ?_⟩
  rw [hct, hsum, htotal]

/-- Witness for C8 (amended): one successful one-unit batch whose
translated text carries exactly one marker line; the combined total and the
outcome count sum are both 1. -/
theorem combine_total_all_success_witness :
    ∃ c outcomes,
      combine_all_results
        ((batch_indices
            ([[⟨"Total Orders", "SUM(OrderCount)"⟩]] :
              List (List SimpleMetric)).length).map (fun i =>
          ((save_conversion_results
              ((fun _ : Nat => "- name: Total Orders\n  expr: SUM(OrderCount)") i)
              ((fun _ : Nat => "20250101_120000") i)
              ((fun _ : Nat => "2025-01-01 12:00:00") i)
              "uc_converted_metrics").filename,
           (save_conversion_results
              ((fun _ : Nat => "- name: Total Orders\n  expr: SUM(OrderCount)") i)
              ((fun _ : Nat => "20250101_120000") i)
              ((fun _ : Nat => "2025-01-01 12:00:00") i)
              "uc_converted_metrics").lines)))
        "20250101_130000" "2025-01-01 13:00:00" "uc_converted_metrics" =
        some c ∧
      process_batches_parallel
          (fun i b => process_metrics_batch
            (fun _ => Except.ok
              ((fun _ : Nat => "- name: Total Orders\n  expr: SUM(OrderCount)") i))
            (fun r => Except.ok
              (save_conversion_results r
                ((fun _ : Nat => "20250101_120000") i)
                ((fun _ : Nat => "2025-01-01 12:00:00") i)
                "uc_converted_metrics").filepath) b)
          [[⟨"Total Orders", "SUM(OrderCount)"⟩]] [1] = Except.ok outcomes ∧
      c.total_conversions = total_unit_count outcomes :=
  combine_total_all_success
    [[⟨"Total Orders", "SUM(OrderCount)"⟩]] [1]
    (fun _ => "- name: Total Orders\n  expr: SUM(OrderCount)")
    (fun _ => "20250101_120000") (fun _ => "2025-01-01 12:00:00")
    "20250101_130000" "2025-01-01 13:00:00" "uc_converted_metrics"
    (by decide) (by decide) (by decide) (by decide) (by decide)

/-! ### Metrics reader: `aas_metrics/read_aas_metrics.py`

Source of the record loop:
```
measures = data.get('measures', [])
simplified_metrics = []
for measure in measures:
    name = measure.get('name', '')
    expression = measure.get('expression', '')
    formatted_expression = _format_expression(expression)
    if name and formatted_expression:
        simplified_metrics.append({"name": name,
                                   "expression": formatted_expression})
return simplified_metrics
```
The embedding starts from the parsed `measures` list: the file-level
failure modes (`FileNotFoundError`, `json.JSONDecodeError`) happen before
the loop and do not concern the per-record behaviour.  A measure with a
missing `name` key behaves as `name = ""`; a missing `expression` key
behaves as the empty string expression. -/

/-- The JSON value of a measure's `expression` field: a string, a list of
string fragments, `None`, or any other JSON value (carried by its Python
`str()` rendering). -/
inductive ExpressionField where
  | str (s : String)
  | list (parts : List String)
  | none
  | other (str_repr : String)
deriving DecidableEq, Repr

/-- A parsed measure record. -/
structure Measure where
  name : String
  expression : ExpressionField
deriving DecidableEq, Repr

/-- Source:
```
if isinstance(expression, str):
    return expression.strip()
elif isinstance(expression, list):
    clean_parts = [part.strip() for part in expression if part.strip()]
    return ' '.join(clean_parts)
else:
    return str(expression) if expression is not None else ""
``` -/
def _format_expression : ExpressionField → String
  | .str s => pyStrip s
  | .list parts =>
      pyJoin " "
        ((parts.filter (fun part => !(pyStrip part == ""))).map pyStrip)
  | .none => ""
  | .other str_repr => str_repr

def read_metrics_to_simple_json (measures : List Measure) :
    List SimpleMetric :=
  measures.filterMap (fun measure =>
    let formatted_expression := _format_expression measure.expression
    if !(measure.name == "") && !(formatted_expression == "") then
      some ⟨measure.name, formatted_expression⟩
    else
      Option.none)

/-- Claim C9: on a fragment list, the formatter drops the fragments that
are empty after trimming, trims the remaining ones and joins them with a
single space (stated as the equivalent trim-first form); in particular
`["SUM(Revenue)", "", "  / SUM(Quantity) "]` formats to
`"SUM(Revenue) / SUM(Quantity)"`. -/
theorem format_expression_spec :
    (∀ parts : List String,
      _format_expression (ExpressionField.list parts) =
        pyJoin " " ((parts.map pyStrip).filter (fun p => !(p == "")))) ∧
    _format_expression
        (ExpressionField.list ["SUM(Revenue)", "", "  / SUM(Quantity) "]) =
      "SUM(Revenue) / SUM(Quantity)" := by
  constructor
  · intro parts
    show pyJoin " "
        ((parts.filter (fun part => !(pyStrip part == ""))).map pyStrip) = _
    congr 1
    induction parts with
    | nil => rfl
    | cons p ps ih =>
      rw [List.map_cons, List.filter_cons, List.filter_cons]
      cases hb : !(pyStrip p == "") with
      | false =>
        simp only [hb, cond_false, Bool.false_eq_true, if_false]
        exact ih
      | true =>
        simp only [hb, cond_true, if_true, List.map_cons]
        rw [ih]
  · decide

/-- Claim C10: `read_metrics_to_simple_json` keeps exactly the measures
whose name is non-empty and whose formatted expression is non-empty, in
order — so measures with an empty name, an empty or blank expression, or a
`None` expression are silently omitted, the result can be shorter than the
input, and no record makes the function fail (it is total).  On a concrete
file with four degenerate measures and one good one, only the good one
survives. -/
theorem read_metrics_omits_empty :
    (∀ measures : List Measure,
      read_metrics_to_simple_json measures =
        (measures.filter (fun m => !(m.name == "") &&
            !(_format_expression m.expression == ""))).map
          (fun m => ⟨m.name, _format_expression m.expression⟩)) ∧
    (∀ measures : List Measure,
      (read_metrics_to_simple_json measures).length ≤ measures.length) ∧
    read_metrics_to_simple_json
        [⟨"", ExpressionField.str "SUM(x)"⟩,
         ⟨"a", ExpressionField.str "   "⟩,
         ⟨"b", ExpressionField.list ["", " "]⟩,
         ⟨"c", ExpressionField.none⟩,
         ⟨"Total", ExpressionField.str " SUM(y) "⟩] =
      [⟨"Total", "SUM(y)"⟩] := by
  have hmain : ∀ measures : List Measure,
      read_metrics_to_simple_json measures =
        (measures.filter (fun m => !(m.name == "") &&
            !(_format_expression m.expression == ""))).map
          (fun m => ⟨m.name, _format_expression m.expression⟩) := by
    intro measures
    induction measures with
    | nil => rfl
    | cons m t ih =>
      show List.filterMap _ (m :: t) = _
      rw [List.filterMap_cons, List.filter_cons]
      cases hb : (!(m.name == "") &&
          !(_format_expression m.expression == "")) with
      | false =>
        simp only [hb, Bool.false_eq_true, if_false]
        exact ih
      | true =>
        simp only [hb, if_true, List.map_cons]
        rw [← ih]
        rfl
  refine ⟨hmain, ?_, by decide⟩
  intro measures
  rw [hmain measures, List.length_map]
  exact List.length_filter_le _ _

end AASConverter
